import Mathlib

/-!
Verification development for the Code Quality Feedback Engine
(src/py_mcp/src/server.py).  The Python source is shallowly embedded:
strings are Lean `String`s, regex detectors are explicit character
scanners implementing exactly the four patterns of
`CodeAnalyzer.error_patterns`, Python floats are modelled by `Rat`,
the SQLite tables are modelled by append-only lists, and `ast.parse`
(an external library call) is modelled by an oracle parameter
`parse : String → Option (Nat × String)` returning `none` on success
and `some (lineno, msg)` on a `SyntaxError`.
-/

/-- Python `\s` / `str.strip` whitespace set (ASCII part, which is all the
analyzed snippets use). -/
def isPySpace (c : Char) : Bool :=
  c = ' ' || c = '\t' || c = '\n' || c = '\r' || c = '\x0b' || c = '\x0c'

/-- Python regex `\w` word character (ASCII part). -/
def isWordChar (c : Char) : Bool :=
  ('a' ≤ c && c ≤ 'z') || ('A' ≤ c && c ≤ 'Z') || ('0' ≤ c && c ≤ '9') || c = '_'

/-- `startsWithL pat s` : `pat` is an initial segment of `s`. -/
def startsWithL : List Char → List Char → Bool
  | [], _ => true
  | _ :: _, [] => false
  | p :: ps, c :: cs => p = c && startsWithL ps cs

/-- Substring occurrence, Python `sub in s` on char lists. -/
def containsSub (sub : List Char) : List Char → Bool
  | [] => startsWithL sub []
  | c :: rest => startsWithL sub (c :: rest) || containsSub sub rest

/-- Python `sub in s` on strings. -/
def strIn (sub s : String) : Bool :=
  containsSub sub.toList s.toList

/-- Python `str.replace` (all occurrences, leftmost, non-overlapping),
fuel-based so it reduces in the kernel. -/
def replaceAux (pat rep : List Char) : Nat → List Char → List Char
  | 0, s => s
  | _ + 1, [] => []
  | fuel + 1, c :: rest =>
    if startsWithL pat (c :: rest) && !pat.isEmpty then
      rep ++ replaceAux pat rep fuel (List.drop (pat.length - 1) rest)
    else
      c :: replaceAux pat rep fuel rest

/-- Python `s.replace(pat, rep)`. -/
def pyReplace (s pat rep : String) : String :=
  String.mk (replaceAux pat.toList rep.toList s.toList.length s.toList)

/-- Python `s.split('\n')` on char lists (`"".split('\n') == [""]`). -/
def splitNl : List Char → List (List Char)
  | [] => [[]]
  | c :: rest =>
    if c = '\n' then [] :: splitNl rest
    else
      match splitNl rest with
      | [] => [[c]]
      | l :: ls => (c :: l) :: ls

/-- Python `'\n'.join(lines)` on char lists. -/
def joinNl : List (List Char) → List Char
  | [] => []
  | [l] => l
  | l :: ls => l ++ '\n' :: joinNl ls

/-- Python `s.split('\n')`. -/
def pySplitLines (s : String) : List String :=
  (splitNl s.toList).map String.mk

/-- Python `'\n'.join(lines)`. -/
def pyJoinLines (ls : List String) : String :=
  String.mk (joinNl (ls.map String.toList))

/-- Python `s.strip()`. -/
def pyStrip (s : String) : String :=
  String.mk (((s.toList.dropWhile isPySpace).reverse.dropWhile isPySpace).reverse)

/-- Python `len(line) - len(line.lstrip())`: width of the leading
whitespace run. -/
def indentOf (l : List Char) : Nat :=
  (l.takeWhile isPySpace).length

/-- Python `s.lower()` (ASCII). -/
def pyLower (s : String) : String :=
  String.mk (s.toList.map Char.toLower)

/-- `' ' * n`. -/
def spaces (n : Nat) : String :=
  String.mk (List.replicate n ' ')

/-- Number of newline characters in a char list. -/
def countNl (l : List Char) : Nat :=
  (l.filter (fun c => c = '\n')).length

/-!
## Pattern Analyzer (`CodeAnalyzer`)

Each entry of `CodeAnalyzer.error_patterns` becomes an explicit matcher
`Option Char → List Char → Option (List Char × List Char)` taking the
previous character (for `\b`) and the current suffix, and returning the
matched text plus the remaining suffix.  All four regexes are
deterministic (their subpattern character classes are pairwise
disjoint), so maximal-run scanning implements them exactly.
-/

/-- Regex `\/\s*0(?![.\d])` (key `division_by_zero`). -/
def divMatch (_prev : Option Char) : List Char → Option (List Char × List Char)
  | '/' :: rest =>
    let ws := rest.takeWhile isPySpace
    let rest2 := rest.dropWhile isPySpace
    match rest2 with
    | '0' :: tail =>
      match tail with
      | [] => some ('/' :: (ws ++ ['0']), [])
      | d :: _ =>
        if d = '.' || ('0' ≤ d && d ≤ '9') then none
        else some ('/' :: (ws ++ ['0']), tail)
    | _ => none
  | _ => none

/-- `[^{]*except` matches a prefix of the list: some occurrence of
`except` is preceded only by non-`\x7b` characters. -/
def hasExceptNoBrace : List Char → Bool
  | [] => false
  | c :: rest =>
    startsWithL ['e', 'x', 'c', 'e', 'p', 't'] (c :: rest) ||
      (c ≠ '{' && hasExceptNoBrace rest)

/-- Regex `open\s*\([^)]*\)(?![^{]*except)` (key `no_exception_handling`). -/
def openMatch (_prev : Option Char) (s : List Char) : Option (List Char × List Char) :=
  if startsWithL ['o', 'p', 'e', 'n'] s then
    let r1 := s.drop 4
    let ws := r1.takeWhile isPySpace
    let r2 := r1.dropWhile isPySpace
    match r2 with
    | '(' :: r3 =>
      let inner := r3.takeWhile (fun c => c ≠ ')')
      let r4 := r3.dropWhile (fun c => c ≠ ')')
      match r4 with
      | ')' :: tail =>
        if hasExceptNoBrace tail then none
        else some ((['o', 'p', 'e', 'n'] ++ ws ++ '(' :: inner) ++ [')'], tail)
      | _ => none
    | _ => none
  else none

/-- Regex `\beval\s*\(` (key `eval_usage`). -/
def evalMatch (prev : Option Char) (s : List Char) : Option (List Char × List Char) :=
  let boundary := match prev with
    | none => true
    | some p => !isWordChar p
  if boundary && startsWithL ['e', 'v', 'a', 'l'] s then
    let r1 := s.drop 4
    let ws := r1.takeWhile isPySpace
    let r2 := r1.dropWhile isPySpace
    match r2 with
    | '(' :: tail => some ((['e', 'v', 'a', 'l'] ++ ws) ++ ['('], tail)
    | _ => none
  else none

/-- Regex `except\s*:` (key `bare_except`). -/
def exceptMatch (_prev : Option Char) (s : List Char) : Option (List Char × List Char) :=
  if startsWithL ['e', 'x', 'c', 'e', 'p', 't'] s then
    let r1 := s.drop 6
    let ws := r1.takeWhile isPySpace
    let r2 := r1.dropWhile isPySpace
    match r2 with
    | ':' :: tail => some ((['e', 'x', 'c', 'e', 'p', 't'] ++ ws) ++ [':'], tail)
    | _ => none
  else none

/-- `re.finditer` driver: scan left to right, emit `(line, matchedText)`
pairs, resume after each match (`line` is `code[:start].count('\n')+1`). -/
def scanAux (m : Option Char → List Char → Option (List Char × List Char)) :
    Nat → Option Char → Nat → List Char → List (Nat × List Char)
  | 0, _, _, _ => []
  | _ + 1, _, _, [] => []
  | fuel + 1, prev, line, c :: rest =>
    match m prev (c :: rest) with
    | some (txt, after) =>
      (line, txt) :: scanAux m fuel txt.getLast? (line + countNl txt) after
    | none =>
      scanAux m fuel (some c) (line + if c = '\n' then 1 else 0) rest

/-- All matches of a pattern in a char list. -/
def scanMatches (m : Option Char → List Char → Option (List Char × List Char))
    (s : List Char) : List (Nat × List Char) :=
  scanAux m s.length none 1 s

/-- One detected issue, the dict appended by `analyze_code`
(`matched` is `none` for the `syntax_error` issue, which carries no
`match` key). -/
structure Issue where
  type : String
  severity : String
  description : String
  line : Nat
  matched : Option String
deriving DecidableEq

/-- Issues of one pattern, in scan order. -/
def issuesFor (kind sev descr : String) (ms : List (Nat × List Char)) : List Issue :=
  ms.map (fun p => ⟨kind, sev, descr, p.1, some (String.mk p.2)⟩)

/-- The pattern-matching part of `CodeAnalyzer.analyze_code`: the four
detectors run in the insertion order of `error_patterns`. -/
def pattern_issues (code : String) : List Issue :=
  let s := code.toList
  issuesFor "division_by_zero" "high" "Potential division by zero"
      (scanMatches divMatch s)
    ++ issuesFor "no_exception_handling" "medium"
      "File operation without exception handling" (scanMatches openMatch s)
    ++ issuesFor "eval_usage" "critical" "Dangerous eval() usage"
      (scanMatches evalMatch s)
    ++ issuesFor "bare_except" "medium" "Bare except clause"
      (scanMatches exceptMatch s)

/-- The `analysis` sub-dict of `analyze_code`. -/
structure AnalysisStats where
  total_errors : Nat
  critical_errors : Nat
  code_length : Nat
deriving DecidableEq

/-- Result of `CodeAnalyzer.analyze_code`. -/
structure AnalyzeResult where
  has_errors : Bool
  syntaxOk : Bool
  errors : List Issue
  stats : AnalysisStats
deriving DecidableEq

/-- `CodeAnalyzer.analyze_code`.  `parse` is the `ast.parse` oracle:
`none` means the snippet parses, `some (lineno, msg)` means
`SyntaxError` with that line and message. -/
def analyze_code (parse : String → Option (Nat × String)) (code : String) :
    AnalyzeResult :=
  let syntaxIssues : List Issue :=
    match parse code with
    | none => []
    | some (ln, msg) =>
      [⟨"syntax_error", "critical", "Syntax error: " ++ msg, ln, none⟩]
  let errors := syntaxIssues ++ pattern_issues code
  { has_errors := !errors.isEmpty
    syntaxOk := (parse code).isNone
    errors := errors
    stats :=
      { total_errors := errors.length
        critical_errors := (errors.filter (fun e => e.severity == "critical")).length
        code_length := (pySplitLines code).length } }

/-- Number of issues of a given kind. -/
def countType (t : String) (issues : List Issue) : Nat :=
  (issues.filter (fun e => e.type == t)).length

/-!
## Quality score (`EnhancedCodeAnalyzer._calculate_quality_score`)

Python floats are modelled by `Rat`; every quantity involved is a small
decimal so the arithmetic is exact.
-/

/-- Readability sub-score: the four fixed bonuses of the source. -/
def readabilityScore (code : String) : Rat :=
  (if strIn "\"\"\"" code || strIn "\x27\x27\x27" code then 15 else 0)
    + (if strIn "def " code && strIn "(" code && strIn ":" code && strIn "->" code
        then 10 else 0)
    + (if (pySplitLines code).length > 1 then 5 else 0)
    + (if strIn "# " code then 5 else 0)

/-- Performance sub-score: the bonuses and penalties of the source. -/
def performanceScore (code : String) : Rat :=
  (if strIn "@functools.lru_cache" code then -5 else 0)
    + (if strIn "recursion" (pyLower code) || strIn "recursive" (pyLower code)
        then -10 else 0)
    + (if strIn "for _ in range(" code then 10 else 0)
    + (if strIn "a, b = b, a" code then 5 else 0)

/-- Per-issue safety penalty: −30 / −15 / −5 for critical / high / medium. -/
def severityPenalty (sev : String) : Rat :=
  if sev = "critical" then 30
  else if sev = "high" then 15
  else if sev = "medium" then 5
  else 0

/-- Safety sub-score: the fold over `analyze_code(code)["errors"]`. -/
def safetyScore (parse : String → Option (Nat × String)) (code : String) : Rat :=
  (analyze_code parse code).errors.foldl (fun acc e => acc - severityPenalty e.severity) 0

/-- `EnhancedCodeAnalyzer._calculate_quality_score`: clamped weighted sum. -/
def calculate_quality_score (parse : String → Option (Nat × String))
    (code : String) : Rat :=
  max 0 (min 100
    (50 + readabilityScore code * (6 / 10) + performanceScore code * (3 / 10)
      + safetyScore parse code))

/-!
## Memory (`CodeMemoryManager`)

The SQLite tables `code_history` and `quality_patterns` are modelled by
append-only lists, the `deque(maxlen=50)` recency window by a list with
front eviction.
-/

/-- An element of the `patterns` argument of `add_code_context`: either a
dict with `type`/`code` keys or a plain string. -/
inductive PatArg
  | dict (ptype pcode : String)
  | str (s : String)
deriving DecidableEq

/-- One entry of the `context_window` deque. -/
structure Ctx where
  id : Nat
  code : String
  safe_code : String
  score : Rat
  patterns : List PatArg
deriving DecidableEq

/-- One row of the `code_history` table. -/
structure HistRow where
  id : Nat
  original_code : String
  safe_code : String
  quality_score : Rat
deriving DecidableEq

/-- One row of the `quality_patterns` table (`context_id` is `none` for
rows inserted by `learn_quality_pattern`). -/
structure PatRow where
  pattern_type : String
  pattern_code : String
  quality_score : Rat
  context_id : Option Nat
deriving DecidableEq

/-- An in-memory `quality_patterns` entry of `learn_quality_pattern`. -/
structure PatMem where
  ptype : String
  pcode : String
  score : Rat
deriving DecidableEq

/-- The mutable state of `CodeMemoryManager`. -/
structure MemState where
  context_window : List Ctx
  history : List HistRow
  pattern_rows : List PatRow
  quality_patterns : List PatMem
deriving DecidableEq

/-- Fresh state right after `CodeMemoryManager.__init__` (empty deque,
empty tables). -/
def initMemState : MemState :=
  ⟨[], [], [], []⟩

/-- `deque(maxlen=n).append`: when full, the oldest (front) element is
evicted. -/
def dequeAppend (maxlen : Nat) (w : List Ctx) (x : Ctx) : List Ctx :=
  let w2 := w ++ [x]
  if w2.length > maxlen then w2.drop (w2.length - maxlen) else w2

/-- `CodeMemoryManager.add_code_context`: one `INSERT` into
`code_history` (`lastrowid` of the append-only `INTEGER PRIMARY KEY`
table is its new row count), one `INSERT` into `quality_patterns` per
pattern, one `append` on the 50-bounded deque. -/
def add_code_context (st : MemState) (original_code safe_code : String)
    (quality_score : Rat) (patterns : List PatArg) : MemState :=
  let context_id := st.history.length + 1
  let patRows := patterns.map (fun p =>
    match p with
    | .dict t c => PatRow.mk t c quality_score (some context_id)
    | .str s => PatRow.mk s "" quality_score (some context_id))
  { context_window := dequeAppend 50 st.context_window
      ⟨context_id, original_code, safe_code, quality_score, patterns⟩
    history := st.history ++ [⟨context_id, original_code, safe_code, quality_score⟩]
    pattern_rows := st.pattern_rows ++ patRows
    quality_patterns := st.quality_patterns }

/-- `CodeMemoryManager.learn_quality_pattern`. -/
def learn_quality_pattern (st : MemState) (pattern_type pattern_code : String)
    (quality_score : Rat) : MemState :=
  { st with
    pattern_rows := st.pattern_rows ++ [⟨pattern_type, pattern_code, quality_score, none⟩]
    quality_patterns := st.quality_patterns ++ [⟨pattern_type, pattern_code, quality_score⟩] }

/-- Arguments of one `add_code_context` call. -/
structure AddCall where
  original_code : String
  safe_code : String
  quality_score : Rat
  patterns : List PatArg

/-- Run a sequence of `add_code_context` calls. -/
def applyAdds (st : MemState) (calls : List AddCall) : MemState :=
  calls.foldl
    (fun s c => add_code_context s c.original_code c.safe_code c.quality_score c.patterns)
    st

/-!
## Similarity retrieval (`CodeMemoryManager.get_similar_contexts`)
-/

/-- Maximal runs of word characters: `re.findall(r'\b\w+\b', s)`. -/
def wordRunsAux : Nat → List Char → List (List Char)
  | 0, _ => []
  | _ + 1, [] => []
  | fuel + 1, c :: rest =>
    if isWordChar c then
      (c :: rest.takeWhile isWordChar) :: wordRunsAux fuel (rest.dropWhile isWordChar)
    else
      wordRunsAux fuel rest

/-- `set(re.findall(r'\b\w+\b', code.lower()))`. -/
def tokensOf (code : String) : Finset String :=
  ((wordRunsAux (pyLower code).toList.length (pyLower code).toList).map
    (fun l => String.mk l)).toFinset

/-- The per-row Jaccard similarity computed inside
`get_similar_contexts`: `intersection / union if union > 0 else 0`. -/
def row_similarity (code rowCode : String) : Rat :=
  let k1 := tokensOf code
  let k2 := tokensOf rowCode
  let inter := (k1 ∩ k2).card
  let uni := (k1 ∪ k2).card
  if uni > 0 then (inter : Rat) / (uni : Rat) else 0

/-- One element of the list returned by `get_similar_contexts`. -/
structure SimRow where
  id : Nat
  original_code : String
  safe_code : String
  quality_score : Rat
  similarity : Rat
deriving DecidableEq

/-- Stable insertion preserving earlier elements on ties, giving the
descending order of `sorted(..., reverse=True)`. -/
def insertDescBySim (x : SimRow) : List SimRow → List SimRow
  | [] => [x]
  | y :: ys =>
    if x.similarity > y.similarity then x :: y :: ys else y :: insertDescBySim x ys

/-- Stable descending sort by similarity. -/
def sortDescBySim (l : List SimRow) : List SimRow :=
  l.foldl (fun acc x => insertDescBySim x acc) []

/-- `CodeMemoryManager.get_similar_contexts`.  `rows` stands for the
result of the `SELECT ... ORDER BY quality_score DESC LIMIT 50` query
over `code_history`. -/
def get_similar_contexts (rows : List HistRow) (code : String)
    (similarity_threshold : Rat) : List SimRow :=
  sortDescBySim (rows.filterMap (fun r =>
    let s := row_similarity code r.original_code
    if s ≥ similarity_threshold then
      some ⟨r.id, r.original_code, r.safe_code, r.quality_score, s⟩
    else none))

/-!
## Pattern catalog and semantic index
(`ChromaDBManager._get_mock_patterns` / `query_safe_patterns`)
-/

/-- The static `_get_mock_patterns` table, in insertion order, with the
exact template strings of the source. -/
def mock_patterns : List (String × String) :=
  [("division_by_zero",
    "\n# Safe division pattern\ndef safe_divide(numerator, denominator):\n    try:\n        return numerator / denominator\n    except ZeroDivisionError:\n        return float(\x27inf\x27) if numerator > 0 else float(\x27-inf\x27)\n"),
   ("no_exception_handling",
    "\n# Safe file handling pattern\ndef safe_read_file(filename):\n    try:\n        with open(filename, \x27r\x27) as file:\n            return file.read()\n    except FileNotFoundError:\n        return \"\"\n    except PermissionError:\n        return \"\"\n"),
   ("eval_usage",
    "\n# Safe alternative to eval\nimport ast\ndef safe_eval(expression):\n    try:\n        return ast.literal_eval(expression)\n    except (ValueError, SyntaxError):\n        return None\n"),
   ("bare_except",
    "\n# Specific exception handling\ntry:\n    risky_operation()\nexcept SpecificException as e:\n    logger.error(f\"Specific error: \x7be\x7d\")\nexcept Exception as e:\n    logger.error(f\"Unexpected error: \x7be\x7d\")\n")]

/-- Association-list lookup (`error_type in self.safe_patterns`). -/
def assocLookup (m : List (String × String)) (k : String) : Option String :=
  match m with
  | [] => none
  | (k', v) :: rest => if k = k' then some v else assocLookup rest k

/-- `ChromaDBManager.query_safe_patterns`.  `has_chromadb` is the flag
set by `__init__` (false when the import or the health-checked
construction failed); `chromaRes` abstracts the guarded
`collection.query` call: `some docs` when it returns a non-empty
document list, `none` when it raises (the `except` branch) or returns
nothing.  The static catalog is consulted first and the result is
truncated to 3 templates. -/
def query_safe_patterns (has_chromadb : Bool) (chromaRes : Option (List String))
    (error_types : List String) : List String :=
  let patterns := error_types.filterMap (fun t => assocLookup mock_patterns t)
  let patterns :=
    if has_chromadb && !error_types.isEmpty then
      match chromaRes with
      | some docs => patterns ++ docs
      | none => patterns
    else patterns
  patterns.take 3

/-!
## Enhanced analyzer context
(`EnhancedCodeAnalyzer._find_similar_contexts` / `_is_similar_code` /
`_generate_recommendations`)
-/

/-- Group extractor for `re.findall(r'def\s+(\w+)\s*\(', code)`:
returns `(name, rest-after-match)`. -/
def defMatchG (s : List Char) : Option (List Char × List Char) :=
  if startsWithL ['d', 'e', 'f'] s then
    let r1 := s.drop 3
    let ws := r1.takeWhile isPySpace
    if ws.isEmpty then none
    else
      let r2 := r1.dropWhile isPySpace
      let name := r2.takeWhile isWordChar
      if name.isEmpty then none
      else
        let r3 := (r2.dropWhile isWordChar).dropWhile isPySpace
        match r3 with
        | '(' :: tail => some (name, tail)
        | _ => none
  else none

/-- `re.findall(r'def\s+(\w+)\s*\(', code)` scanning driver. -/
def extractFnAux : Nat → List Char → List String
  | 0, _ => []
  | _ + 1, [] => []
  | fuel + 1, c :: rest =>
    match defMatchG (c :: rest) with
    | some (g, after) => String.mk g :: extractFnAux fuel after
    | none => extractFnAux fuel rest

/-- `extract_functions` of `_is_similar_code`. -/
def extract_functions (code : String) : List String :=
  extractFnAux code.toList.length code.toList

/-- Group extractor for `re.findall(r'\b(\w+)\s*=', code)`. -/
def varMatchG (prev : Option Char) (s : List Char) : Option (List Char × List Char) :=
  let boundary := match prev with
    | none => true
    | some p => !isWordChar p
  match s with
  | c :: _ =>
    if boundary && isWordChar c then
      let name := s.takeWhile isWordChar
      let r1 := (s.dropWhile isWordChar).dropWhile isPySpace
      match r1 with
      | '=' :: tail => some (name, tail)
      | _ => none
    else none
  | [] => none

/-- `re.findall(r'\b(\w+)\s*=', code)` scanning driver (matched text
always ends in `=`, which becomes the previous character). -/
def extractVarAux : Nat → Option Char → List Char → List String
  | 0, _, _ => []
  | _ + 1, _, [] => []
  | fuel + 1, prev, c :: rest =>
    match varMatchG prev (c :: rest) with
    | some (g, after) => String.mk g :: extractVarAux fuel (some '=') after
    | none => extractVarAux fuel (some c) rest

/-- `extract_variables` of `_is_similar_code`. -/
def extract_variables (code : String) : List String :=
  extractVarAux code.toList.length none code.toList

/-- `EnhancedCodeAnalyzer._is_similar_code`: a shared function name or a
shared assigned variable name. -/
def is_similar_code (code1 code2 : String) : Bool :=
  let f1 := extract_functions code1
  let f2 := extract_functions code2
  let v1 := extract_variables code1
  let v2 := extract_variables code2
  f1.any (fun x => f2.contains x) || v1.any (fun x => v2.contains x)

/-- `EnhancedCodeAnalyzer._find_similar_contexts`: keep window entries
whose score is within 10 below the caller score and that are similar. -/
def find_similar_contexts (window : List Ctx) (code : String)
    (quality_score : Rat) : List Ctx :=
  window.filter (fun c =>
    !(decide (c.score < quality_score - 10)) && is_similar_code code c.code)

/-- One recommendation dict (`type` / `code` / `reason` keys). -/
structure Recommendation where
  rtype : String
  rcode : String
  reason : String
deriving DecidableEq

/-- `EnhancedCodeAnalyzer._generate_recommendations`. -/
def generate_recommendations (similar : List Ctx) (quality_score : Rat) :
    List Recommendation :=
  similar.foldl (fun acc c =>
    if c.score < quality_score - 5 then acc
    else
      acc
        ++ (if strIn "try:" c.code && strIn "except:" c.code then
              [⟨"no_exception_handling", c.code, "Context has good exception handling"⟩]
            else [])
        ++ (if strIn "open(" c.code && strIn "with" c.code then
              [⟨"file_handling", c.code, "Context uses with statement for file handling"⟩]
            else [])) []

/-!
## Transformer (`MCPMiddleware.generate_safe_code` and fixers)
-/

/-- `MCPMiddleware._fix_division`: wrap the whole snippet in
`try/except ZeroDivisionError` when it contains `/` and no `try:`. -/
def fix_division (code : String) : String :=
  if !strIn "try:" code && strIn "/" code then
    pyJoinLines (["try:"] ++ (pySplitLines code).map (fun l => "    " ++ l) ++
      ["except ZeroDivisionError:",
       "    print(\"Warning: Division by zero avoided\")",
       "    result = float(\"inf\")"])
  else code

/-- `MCPMiddleware._fix_file_ops`. -/
def fix_file_ops (code : String) : String :=
  if strIn "open(" code && !strIn "with" code then
    pyJoinLines ((pySplitLines code).flatMap (fun line =>
      if strIn "open(" line && !strIn "with" line then
        let ind := indentOf line.toList
        [spaces ind ++ "try:",
         spaces (ind + 4) ++ "with " ++ pyStrip line,
         spaces (ind + 8) ++ "# File operations here",
         spaces ind ++ "except (FileNotFoundError, PermissionError):",
         spaces (ind + 4) ++ "pass  # Handle file errors"]
      else [line]))
  else code

/-- `MCPMiddleware._fix_bare_except`. -/
def fix_bare_except (code : String) : String :=
  pyReplace code "except:" "except Exception as e:"

/-- `MCPMiddleware.generate_safe_code`: one fixer application per
detected issue, in issue order. -/
def generate_safe_code (detected_issues : List Issue) (original_code : String) :
    String :=
  detected_issues.foldl (fun improved err =>
    if err.type = "division_by_zero" then fix_division improved
    else if err.type = "no_exception_handling" then fix_file_ops improved
    else if err.type = "eval_usage" then
      let r := pyReplace improved "eval(" "ast.literal_eval("
      if strIn "import ast" r then r else "import ast\n" ++ r
    else if err.type = "bare_except" then fix_bare_except improved
    else improved) original_code

/-!
## Orchestration (`EnhancedMCPMiddleware` / `handle_validate_code`)

Python dicts are association lists; reading an absent key raises
`KeyError(k)`, whose `str` is the key wrapped in single quotes, modelled
by `Except.error`.
-/

/-- Values stored in the embedded analysis dict. -/
inductive AVal
  | b (x : Bool)
  | n (x : Rat)
  | s (x : String)
  | issues (xs : List Issue)
  | ctxs (xs : List Ctx)
  | recs (xs : List Recommendation)
  | stats (x : AnalysisStats)

/-- Python dict read: `d[k]` raises `KeyError` (printed with quotes)
when `k` is absent. -/
def dictGet (d : List (String × AVal)) (k : String) : Except String AVal :=
  match d with
  | [] => .error ("\x27" ++ k ++ "\x27")
  | (k', v) :: rest => if k = k' then .ok v else dictGet rest k

/-- Projection used where the source trusts the dynamic type. -/
def avalBool : AVal → Bool
  | .b x => x
  | _ => false

/-- Numeric projection. -/
def avalNum : AVal → Rat
  | .n x => x
  | _ => 0

/-- String projection. -/
def avalStr : AVal → String
  | .s x => x
  | _ => ""

/-- Issue-list projection. -/
def avalIssues : AVal → List Issue
  | .issues xs => xs
  | _ => []

/-- Context-list projection. -/
def avalCtxs : AVal → List Ctx
  | .ctxs xs => xs
  | _ => []

/-- Recommendation-list projection. -/
def avalRecs : AVal → List Recommendation
  | .recs xs => xs
  | _ => []

/-- `EnhancedCodeAnalyzer.analyze_with_context`: the exact keys of the
returned dict, in insertion order.  Note that no `quality_patterns` and
no `context_length` key is ever produced. -/
def analyze_with_context (parse : String → Option (Nat × String))
    (window : List Ctx) (code : String) : List (String × AVal) :=
  let a := analyze_code parse code
  let q := calculate_quality_score parse code
  let sim := find_similar_contexts window code q
  let rcs := generate_recommendations sim q
  [("has_errors", .b a.has_errors),
   ("syntax_valid", .b a.syntaxOk),
   ("errors", .issues a.errors),
   ("analysis", .stats a.stats),
   ("quality_score", .n q),
   ("similar_contexts", .ctxs sim),
   ("recommendations", .recs rcs)]

/-- The parts of the enhanced MCP context consumed downstream. -/
structure EnhancedContext where
  original_code : String
  detected_issues : List Issue
  safe_patterns : List String
  quality_score : Rat
  similar_contexts : List Ctx
  recommendations : List Recommendation

/-- `EnhancedMCPMiddleware.create_enhanced_context`: dict reads in
source evaluation order; the read of `analysis["quality_patterns"]`
(and later `analysis["context_length"]`) raises `KeyError`. -/
def create_enhanced_context (awc : List (String × AVal)) (code : String)
    (safe_patterns : List String) : Except String EnhancedContext := do
  let errs ← dictGet awc "errors"
  let qs ← dictGet awc "quality_score"
  let _qp ← dictGet awc "quality_patterns"
  let sim ← dictGet awc "similar_contexts"
  let rcs ← dictGet awc "recommendations"
  let _cl ← dictGet awc "context_length"
  pure { original_code := code
         detected_issues := avalIssues errs
         safe_patterns := safe_patterns
         quality_score := avalNum qs
         similar_contexts := (avalCtxs sim).take 3
         recommendations := avalRecs rcs }

/-- Keys of a window context dict (`add_code_context` inserts exactly
`id`, `code`, `safe_code`, `score`, `patterns`). -/
def ctxGet (c : Ctx) (k : String) : Except String AVal :=
  if k = "id" then .ok (.n c.id)
  else if k = "code" then .ok (.s c.code)
  else if k = "safe_code" then .ok (.s c.safe_code)
  else if k = "score" then .ok (.n c.score)
  else .error ("\x27" ++ k ++ "\x27")

/-- Keys of a recommendation dict. -/
def recGet (r : Recommendation) (k : String) : Except String AVal :=
  if k = "type" then .ok (.s r.rtype)
  else if k = "code" then .ok (.s r.rcode)
  else if k = "reason" then .ok (.s r.reason)
  else .error ("\x27" ++ k ++ "\x27")

/-- `EnhancedMCPMiddleware._apply_quality_patterns`: reads
`context["safe"]` (a key no context record has) once `"def "` occurs in
the code; otherwise only logs and returns the code unchanged. -/
def apply_quality_patterns (code : String) (c : Ctx) : Except String String := do
  if strIn "def " code then
    let sv ← ctxGet c "safe"
    if strIn ":" (avalStr sv) && strIn "->" (avalStr sv) then
      pure code
    else pure code
  else pure code

/-- `re.sub(r'(\s*)(\w+)\s*=\s*open\(', r'\1with open(', code)` matcher:
returns `(replacementText, rest)`. -/
def assignOpenMatch (s : List Char) : Option (List Char × List Char) :=
  let ws := s.takeWhile isPySpace
  let r1 := s.dropWhile isPySpace
  let name := r1.takeWhile isWordChar
  if name.isEmpty then none
  else
    let r2 := (r1.dropWhile isWordChar).dropWhile isPySpace
    match r2 with
    | '=' :: r3 =>
      let r4 := r3.dropWhile isPySpace
      if startsWithL ['o', 'p', 'e', 'n', '('] r4 then
        some (ws ++ ['w', 'i', 't', 'h', ' ', 'o', 'p', 'e', 'n', '('], r4.drop 5)
      else none
    | _ => none

/-- The `re.sub` scan for `_apply_recommendation`. -/
def subAssignOpenAux : Nat → List Char → List Char
  | 0, s => s
  | _ + 1, [] => []
  | fuel + 1, c :: rest =>
    match assignOpenMatch (c :: rest) with
    | some (rep, after) => rep ++ subAssignOpenAux fuel after
    | none => c :: subAssignOpenAux fuel rest

/-- `EnhancedMCPMiddleware._apply_recommendation`. -/
def apply_recommendation (code : String) (r : Recommendation) : String :=
  if r.rtype = "no_exception_handling" && strIn "with open" r.rcode then
    if strIn "open(" code && !strIn "with" code then
      String.mk (subAssignOpenAux code.toList.length code.toList)
    else code
  else code

/-- `EnhancedMCPMiddleware.generate_context_aware_code`: base fixes,
then the high-quality-context loop, then the recommendation loop (which
reads the absent `rec["quality_score"]` key). -/
def generate_context_aware_code (code : String) (ctx : EnhancedContext) :
    Except String String := do
  let improved := generate_safe_code ctx.detected_issues code
  let improved ← ctx.similar_contexts.foldlM (fun acc c =>
    if c.score > 80 then apply_quality_patterns acc c else pure acc) improved
  let improved ← ctx.recommendations.foldlM (fun acc r => do
    let v ← recGet r "quality_score"
    if avalNum v > 75 then pure (apply_recommendation acc r) else pure acc) improved
  pure improved

/-- The JSON payload shapes `handle_validate_code` can return. -/
inductive VResult
  | errorPayload (msg : String)
  | safeReport (original_code : String) (quality_score : Rat)
  | improvedReport (original_code safe_code : String)
      (original_score improved_score : Rat) (detected_errors : List Issue)
deriving DecidableEq

/-- Body of `PythonCodeQualityServer.handle_validate_code` inside the
`try`: dict reads in source order; the second component counts calls of
the transformer `generate_context_aware_code`. -/
def handle_body (parse : String → Option (Nat × String)) (window : List Ctx)
    (has_chromadb : Bool) (chromaRes : Option (List String)) (code : String) :
    Except String VResult × Nat :=
  let awc := analyze_with_context parse window code
  match dictGet awc "has_errors" with
  | .error e => (.error e, 0)
  | .ok he =>
    if !(avalBool he) then
      ((do
        let _qp ← dictGet awc "quality_patterns"
        let _anal ← dictGet awc "analysis"
        let qs ← dictGet awc "quality_score"
        let _qp2 ← dictGet awc "quality_patterns"
        let _sim ← dictGet awc "similar_contexts"
        let _cl ← dictGet awc "context_length"
        pure (VResult.safeReport code (avalNum qs)) : Except String VResult), 0)
    else
      match (do
        let errs ← dictGet awc "errors"
        let error_types := (avalIssues errs).map (fun e => e.type)
        let sp := query_safe_patterns has_chromadb chromaRes error_types
        create_enhanced_context awc code sp : Except String EnhancedContext) with
      | .error e => (.error e, 0)
      | .ok ctx =>
        match generate_context_aware_code code ctx with
        | .error e => (.error e, 1)
        | .ok safe_code =>
          let awc2 := analyze_with_context parse window safe_code
          (((do
            let qs2 ← dictGet awc2 "quality_score"
            let qs1 ← dictGet awc "quality_score"
            let _learn ←
              if avalNum qs2 - avalNum qs1 > 0 then dictGet awc2 "quality_patterns"
              else pure (AVal.b true)
            let errs ← dictGet awc "errors"
            let _qp2 ← dictGet awc2 "quality_patterns"
            let _cl ← dictGet awc "context_length"
            pure (VResult.improvedReport code safe_code (avalNum qs1) (avalNum qs2)
              (avalIssues errs))) : Except String VResult), 1)

/-- `PythonCodeQualityServer.handle_validate_code`: the blank-input
guard, then the `try/except` that turns any exception `e` into the
payload `{"error": f"Enhanced validation failed: {e}"}`. -/
def handle_validate_code (parse : String → Option (Nat × String))
    (window : List Ctx) (has_chromadb : Bool) (chromaRes : Option (List String))
    (code : String) : VResult × Nat :=
  if pyStrip code = "" then (.errorPayload "No code provided", 0)
  else
    match handle_body parse window has_chromadb chromaRes code with
    | (.ok r, n) => (r, n)
    | (.error e, n) => (.errorPayload ("Enhanced validation failed: " ++ e), n)

/-- Number of issues of a given severity. -/
def countSeverity (s : String) (issues : List Issue) : Nat :=
  (issues.filter (fun e => e.severity == s)).length

/-- Whether a payload is the `status: safe` report. -/
def isSafeStatus : VResult → Bool
  | .safeReport _ _ => true
  | _ => false

/-!
## Theorems

Helper lemmas first, then one theorem per claim (with witnesses and
counterexamples where required).
-/

theorem foldl_sub_penalty (l : List Issue) (a : Rat) :
    l.foldl (fun acc e => acc - severityPenalty e.severity) a
      = a - (30 * (countSeverity "critical" l : Rat)
          + 15 * (countSeverity "high" l : Rat)
          + 5 * (countSeverity "medium" l : Rat)) := by
  induction l generalizing a with
  | nil => simp [countSeverity]
  | cons e t ih =>
    simp only [List.foldl_cons, ih, countSeverity, List.filter_cons]
    by_cases h1 : e.severity = "critical"
    · simp [h1, severityPenalty, countSeverity]
      ring
    · by_cases h2 : e.severity = "high"
      · simp [h1, h2, severityPenalty, countSeverity]
        ring
      · by_cases h3 : e.severity = "medium"
        · simp [h1, h2, h3, severityPenalty, countSeverity]
          ring
        · simp [h1, h2, h3, severityPenalty, countSeverity]

theorem countType_analyze (parse : String → Option (Nat × String)) (code : String)
    (t : String) (h : t ≠ "syntax_error") :
    countType t (analyze_code parse code).errors = countType t (pattern_issues code) := by
  unfold analyze_code countType
  cases hp : parse code with
  | none => simp
  | some v =>
    simp [List.filter_append, Ne.symm h]

theorem dequeAppend_length_le (w : List Ctx) (x : Ctx) :
    (dequeAppend 50 w x).length ≤ 50 := by
  unfold dequeAppend
  by_cases h : (w ++ [x]).length > 50
  · rw [if_pos h]
    simp only [List.length_drop]
    omega
  · rw [if_neg h]
    omega

theorem applyAdds_window_le (calls : List AddCall) :
    ∀ st : MemState, st.context_window.length ≤ 50 →
      (applyAdds st calls).context_window.length ≤ 50 := by
  induction calls with
  | nil => intro st h; simpa [applyAdds] using h
  | cons c t ih =>
    intro st h
    simp only [applyAdds, List.foldl_cons]
    exact ih _ (dequeAppend_length_le _ _)

theorem applyAdds_history_length (calls : List AddCall) :
    ∀ st : MemState, (applyAdds st calls).history.length
      = st.history.length + calls.length := by
  induction calls with
  | nil => intro st; simp [applyAdds]
  | cons c t ih =>
    intro st
    simp only [applyAdds, List.foldl_cons] at *
    rw [ih]
    simp [add_code_context]
    omega

/-- Claim C2 (confirmed): for every snippet and every parse behavior,
the computed quality total equals
`clamp(50 + 0.6·readability + 0.3·performance + safety, 0, 100)`, the
safety sub-score decreases by 30 per critical, 15 per high and 5 per
medium issue, and hence the total always lies in `[0, 100]`. -/
theorem c2_quality_score_clamped_formula
    (parse : String → Option (Nat × String)) (code : String) :
    calculate_quality_score parse code
      = max 0 (min 100 (50 + readabilityScore code * (6 / 10)
          + performanceScore code * (3 / 10) + safetyScore parse code))
    ∧ safetyScore parse code
      = -(30 * (countSeverity "critical" (analyze_code parse code).errors : Rat)
          + 15 * (countSeverity "high" (analyze_code parse code).errors : Rat)
          + 5 * (countSeverity "medium" (analyze_code parse code).errors : Rat))
    ∧ 0 ≤ calculate_quality_score parse code
    ∧ calculate_quality_score parse code ≤ 100 := by
  refine ⟨rfl, ?_, le_max_left 0 _, max_le (by norm_num) (min_le_left _ _)⟩
  unfold safetyScore
  rw [foldl_sub_penalty]
  ring

/-- Claim C6 (confirmed): after any sequence of `add_code_context`
calls on a fresh memory manager, the recency window holds at most 50
records, while the durable `code_history` row count equals the number
of calls made and is monotonically non-decreasing along the call
sequence. -/
theorem c6_memory_window_bounded_history_counts (calls : List AddCall) :
    (applyAdds initMemState calls).context_window.length ≤ 50
    ∧ (applyAdds initMemState calls).history.length = calls.length
    ∧ ∀ n : Nat, (applyAdds initMemState (calls.take n)).history.length
        ≤ (applyAdds initMemState calls).history.length := by
  refine ⟨applyAdds_window_le calls initMemState (by simp [initMemState]), ?_, ?_⟩
  · rw [applyAdds_history_length]
    simp [initMemState]
  · intro n
    rw [applyAdds_history_length, applyAdds_history_length]
    simp [initMemState, List.length_take]

/-- Claim C9 (confirmed): when the semantic index is unavailable at
construction (`has_chromadb = false`) or its query errors at call time
(`chromaRes = none`), `query_safe_patterns` still returns exactly the
static catalog templates for the requested issue kinds, capped at 3;
retrieval is a total function, so no code path hard-fails. -/
theorem c9_query_safe_patterns_catalog_fallback (error_types : List String)
    (chromaRes : Option (List String)) :
    query_safe_patterns false chromaRes error_types
      = (error_types.filterMap (fun t => assocLookup mock_patterns t)).take 3
    ∧ query_safe_patterns true none error_types
      = (error_types.filterMap (fun t => assocLookup mock_patterns t)).take 3
    ∧ ∀ (hc : Bool) (r : Option (List String)),
        (query_safe_patterns hc r error_types).length ≤ 3 := by
  refine ⟨by simp [query_safe_patterns], ?_, ?_⟩
  · cases error_types <;> simp [query_safe_patterns]
  · intro hc r
    have h : ∀ l : List String, (l.take 3).length ≤ 3 := by
      intro l
      simp [List.length_take]
    exact h _

/-- Claim C10 (confirmed): the Jaccard similarity of
`get_similar_contexts` is division-safe — it is defined to be 0 when
the union of the token sets is empty — and always lies in `[0, 1]`. -/
theorem c10_similarity_division_safe_bounds (s1 s2 : String) :
    0 ≤ row_similarity s1 s2 ∧ row_similarity s1 s2 ≤ 1
    ∧ (tokensOf s1 ∪ tokensOf s2 = ∅ → row_similarity s1 s2 = 0) := by
  unfold row_similarity
  by_cases hu : (tokensOf s1 ∪ tokensOf s2).card > 0
  · rw [if_pos hu]
    refine ⟨by positivity, ?_, ?_⟩
    · rw [div_le_one (by exact_mod_cast hu)]
      exact_mod_cast Finset.card_le_card
        ((Finset.inter_subset_left).trans Finset.subset_union_left)
    · intro h
      rw [h] at hu
      simp at hu
  · rw [if_neg hu]
    exact ⟨le_refl 0, by norm_num, fun _ => rfl⟩

/-- Witness for C10 at concrete inputs: two token-free snippets have an
empty token-set union and similarity 0, and bounds hold. -/
theorem c10_similarity_witness :
    row_similarity "#" "#" = 0 ∧ 0 ≤ row_similarity "ab" "cd" := by
  exact ⟨(c10_similarity_division_safe_bounds "#" "#").2.2 (by decide),
    (c10_similarity_division_safe_bounds "ab" "cd").1⟩

/-- Counterexample to claim C7 as stated: the snippets `"#"` and `"#"`
have identical (empty) token sets, yet `get_similar_contexts` computes
similarity 0, not 1.0 (the `union > 0` guard returns 0). -/
theorem c7_empty_token_sets_similarity_zero :
    tokensOf "#" = tokensOf "#" ∧ row_similarity "#" "#" ≠ 1
    ∧ row_similarity "#" "#" = 0 := by
  exact ⟨rfl, by decide, by decide⟩

/-- Claim C7 as amended: the Jaccard similarity is 1.0 for identical
and non-empty token sets, and 0.0 for disjoint token sets (including
the degenerate both-empty case, where the code defines it as 0). -/
theorem c7_jaccard_identical_nonempty_disjoint (s1 s2 : String) :
    (tokensOf s1 = tokensOf s2 → tokensOf s1 ≠ ∅ → row_similarity s1 s2 = 1)
    ∧ (tokensOf s1 ∩ tokensOf s2 = ∅ → row_similarity s1 s2 = 0) := by
  constructor
  · intro h hne
    simp only [row_similarity]
    rw [← h, Finset.inter_self, Finset.union_self]
    have hc : 0 < (tokensOf s1).card :=
      Finset.card_pos.mpr (Finset.nonempty_iff_ne_empty.mpr hne)
    rw [if_pos hc]
    exact div_self (by exact_mod_cast hc.ne')
  · intro h
    simp only [row_similarity]
    by_cases hu : (tokensOf s1 ∪ tokensOf s2).card > 0
    · rw [if_pos hu, h]
      simp
    · rw [if_neg hu]

/-- Witness for the amended C7 at concrete inputs: identical token sets
`\x7bab\x7d` give similarity 1, disjoint token sets give 0. -/
theorem c7_jaccard_witness :
    row_similarity "ab" "ab" = 1 ∧ row_similarity "ab" "cd" = 0 := by
  exact ⟨(c7_jaccard_identical_nonempty_disjoint "ab" "ab").1 rfl (by decide),
    (c7_jaccard_identical_nonempty_disjoint "ab" "cd").2 (by decide)⟩

theorem handle_body_keyerror (parse : String → Option (Nat × String))
    (window : List Ctx) (hc : Bool) (cr : Option (List String)) (code : String) :
    handle_body parse window hc cr code = (.error "\x27quality_patterns\x27", 0) := by
  unfold handle_body create_enhanced_context
  cases hb : (analyze_code parse code).has_errors <;>
    simp [analyze_with_context, dictGet, avalBool, hb, Bind.bind, Except.bind]

/-- Claim C1 (code bug): `handle_validate_code` indeed never raises to
the caller (the model is a total function), but it never returns a
`safe`/`improved` report either: the handler reads
`analysis["quality_patterns"]` (line 800) and
`create_enhanced_context` reads the same key (line 698), which
`analyze_with_context` never produces, so every non-blank input is
answered with the bare payload
`\x7b"error": "Enhanced validation failed: \x27quality_patterns\x27"\x7d`
and blank input with `\x7b"error": "No code provided"\x7d`. -/
theorem c1_validate_always_error_payload (parse : String → Option (Nat × String))
    (window : List Ctx) (hc : Bool) (cr : Option (List String)) (code : String) :
    (handle_validate_code parse window hc cr code).1
        = VResult.errorPayload "No code provided"
    ∨ (handle_validate_code parse window hc cr code).1
        = VResult.errorPayload "Enhanced validation failed: \x27quality_patterns\x27" := by
  unfold handle_validate_code
  by_cases hs : pyStrip code = ""
  · left
    rw [if_pos hs]
  · right
    rw [if_neg hs, handle_body_keyerror]
    rfl

/-- Counterexample to claim C3 as stated: the analyzer reports zero
`division_by_zero` issues (not one) for
`"def ratio(a,b): return a/b"` — the detector regex only matches a
literal `/0` denominator.  The oracle `fun _ => none` is the faithful
instantiation since Python's `ast.parse` accepts the snippet (and the
`division_by_zero` count is oracle-independent, see the amended
theorem). -/
theorem c3_ratio_snippet_no_division_issue :
    countType "division_by_zero"
        (analyze_code (fun _ => none) "def ratio(a,b): return a/b").errors = 0
    ∧ countType "division_by_zero"
        (analyze_code (fun _ => none) "def ratio(a,b): return a/b").errors ≠ 1 := by
  exact ⟨by decide, by decide⟩

/-- Claim C3 as amended: `"def ratio(a,b): return a/b"` yields zero
`division_by_zero` issues under every parse behavior and is classified
safe when it parses; the detector fires only on a literal zero
denominator, e.g. `"x = 1/0"` yields exactly one `high`
`division_by_zero` issue at line 1 with matched text `"/0"`. -/
theorem c3_division_detector_literal_zero_only
    (parse : String → Option (Nat × String)) :
    countType "division_by_zero"
        (analyze_code parse "def ratio(a,b): return a/b").errors = 0
    ∧ (parse "def ratio(a,b): return a/b" = none →
        (analyze_code parse "def ratio(a,b): return a/b").has_errors = false)
    ∧ (parse "x = 1/0" = none →
        (analyze_code parse "x = 1/0").errors
          = [⟨"division_by_zero", "high", "Potential division by zero", 1, some "/0"⟩]) := by
  refine ⟨?_, ?_, ?_⟩
  · rw [countType_analyze parse _ _ (by decide)]
    decide
  · intro h
    have hp : pattern_issues "def ratio(a,b): return a/b" = [] := by decide
    simp [analyze_code, h, hp]
  · intro h
    have hp : pattern_issues "x = 1/0"
        = [⟨"division_by_zero", "high", "Potential division by zero", 1, some "/0"⟩] := by
      decide
    simp [analyze_code, h, hp]

/-- Witness for the amended C3 with the oracle matching Python
(`ast.parse` accepts both snippets). -/
theorem c3_division_detector_witness :
    (analyze_code (fun _ => none) "def ratio(a,b): return a/b").has_errors = false
    ∧ (analyze_code (fun _ => none) "x = 1/0").errors
        = [⟨"division_by_zero", "high", "Potential division by zero", 1, some "/0"⟩] :=
  ⟨(c3_division_detector_literal_zero_only (fun _ => none)).2.1 rfl,
   (c3_division_detector_literal_zero_only (fun _ => none)).2.2 rfl⟩

/-- Claim C4 (code bug): for a snippet classified safe the transformer
is indeed never invoked (the call counter stays 0), but the intended
safe report echoing the unchanged snippet (server.py lines 809-824) is
unreachable — the handler raises `KeyError('quality_patterns')` at
line 800 first and returns the bare error payload instead. -/
theorem c4_safe_snippet_no_transform_error_payload
    (parse : String → Option (Nat × String)) (window : List Ctx) (hc : Bool)
    (cr : Option (List String)) (code : String) (h1 : pyStrip code ≠ "")
    (_h2 : (analyze_code parse code).has_errors = false) :
    (handle_validate_code parse window hc cr code).2 = 0
    ∧ (handle_validate_code parse window hc cr code).1
        = VResult.errorPayload "Enhanced validation failed: \x27quality_patterns\x27" := by
  unfold handle_validate_code
  rw [if_neg h1, handle_body_keyerror]
  exact ⟨rfl, rfl⟩

/-- Witness for C4 at the issue-free snippet `"x = 1"`. -/
theorem c4_safe_snippet_witness :
    pyStrip "x = 1" ≠ ""
    ∧ (analyze_code (fun _ => none) "x = 1").has_errors = false
    ∧ (handle_validate_code (fun _ => none) [] false none "x = 1").2 = 0
    ∧ (handle_validate_code (fun _ => none) [] false none "x = 1").1
        = VResult.errorPayload "Enhanced validation failed: \x27quality_patterns\x27" := by
  have h1 : pyStrip "x = 1" ≠ "" := by decide
  have h2 : (analyze_code (fun _ => none) "x = 1").has_errors = false := by decide
  exact ⟨h1, h2,
    (c4_safe_snippet_no_transform_error_payload (fun _ => none) [] false none "x = 1" h1 h2).1,
    (c4_safe_snippet_no_transform_error_payload (fun _ => none) [] false none "x = 1" h1 h2).2⟩

/-- Counterexample to claim C5 as stated: for the snippet `"x = 1/0"`
(one `division_by_zero` issue) the transformer's output still carries
exactly one `division_by_zero` issue on re-analysis — the fixed kind is
not removed.  The improved code is syntactically valid so the oracle
`fun _ => none` is the faithful instantiation. -/
theorem c5_division_fix_issue_persists :
    countType "division_by_zero"
        (analyze_code (fun _ => none)
          (generate_safe_code (analyze_code (fun _ => none) "x = 1/0").errors
            "x = 1/0")).errors = 1
    ∧ countType "division_by_zero"
        (analyze_code (fun _ => none)
          (generate_safe_code (analyze_code (fun _ => none) "x = 1/0").errors
            "x = 1/0")).errors ≠ 0 := by
  exact ⟨by decide, by decide⟩

/-- Claim C5 as amended: the division fixer wraps the snippet in
explicit `try/except ZeroDivisionError` handling but does not remove
the matched `/0` text, so re-analysis of the improved `"x = 1/0"`
still reports exactly one `division_by_zero` issue — no more than the
original count, but not zero — under every parse behavior of the
improved code. -/
theorem c5_division_fix_wraps_but_keeps_issue
    (parse parse2 : String → Option (Nat × String))
    (h : parse "x = 1/0" = none) :
    strIn "except ZeroDivisionError:"
        (generate_safe_code (analyze_code parse "x = 1/0").errors "x = 1/0") = true
    ∧ countType "division_by_zero"
        (analyze_code parse2
          (generate_safe_code (analyze_code parse "x = 1/0").errors "x = 1/0")).errors
      = countType "division_by_zero" (analyze_code parse "x = 1/0").errors
    ∧ countType "division_by_zero"
        (analyze_code parse2
          (generate_safe_code (analyze_code parse "x = 1/0").errors "x = 1/0")).errors
      = 1 := by
  have he : (analyze_code parse "x = 1/0").errors
      = [⟨"division_by_zero", "high", "Potential division by zero", 1, some "/0"⟩] := by
    have hp : pattern_issues "x = 1/0"
        = [⟨"division_by_zero", "high", "Potential division by zero", 1, some "/0"⟩] := by
      decide
    simp [analyze_code, h, hp]
  rw [he]
  refine ⟨by decide, ?_, ?_⟩
  · rw [countType_analyze parse2 _ _ (by decide)]
    decide
  · rw [countType_analyze parse2 _ _ (by decide)]
    decide

/-- Witness for the amended C5 with the oracle matching Python. -/
theorem c5_division_fix_witness :
    strIn "except ZeroDivisionError:"
        (generate_safe_code (analyze_code (fun _ => none) "x = 1/0").errors
          "x = 1/0") = true
    ∧ countType "division_by_zero"
        (analyze_code (fun _ => none)
          (generate_safe_code (analyze_code (fun _ => none) "x = 1/0").errors
            "x = 1/0")).errors = 1 :=
  ⟨(c5_division_fix_wraps_but_keeps_issue (fun _ => none) (fun _ => none) rfl).1,
   (c5_division_fix_wraps_but_keeps_issue (fun _ => none) (fun _ => none) rfl).2.2⟩

/-- Counterexample to claim C8 as stated: the empty-string input is
answered by the deliberate early return
`\x7b"error": "No code provided"\x7d`, not by a `status: safe` report
with total 50. -/
theorem c8_empty_input_error_payload :
    (handle_validate_code (fun _ => none) [] false none "").1
        = VResult.errorPayload "No code provided"
    ∧ isSafeStatus (handle_validate_code (fun _ => none) [] false none "").1
        = false := by
  exact ⟨by decide, by decide⟩

/-- Claim C8 as amended: for empty input `handle_validate_code`
returns the explicitly defined baseline payload
`\x7b"error": "No code provided"\x7d` without crashing; the quality
score function does evaluate to the base 50 on the empty string (when
it parses, as it does in Python) and the analyzer reports zero
issues there. -/
theorem c8_empty_input_baseline (parse : String → Option (Nat × String))
    (window : List Ctx) (hc : Bool) (cr : Option (List String))
    (h : parse "" = none) :
    (handle_validate_code parse window hc cr "").1
        = VResult.errorPayload "No code provided"
    ∧ calculate_quality_score parse "" = 50
    ∧ (analyze_code parse "").errors = [] := by
  have hp : pattern_issues "" = [] := by decide
  have he : (analyze_code parse "").errors = [] := by simp [analyze_code, h, hp]
  refine ⟨?_, ?_, he⟩
  · have h0 : pyStrip "" = "" := by decide
    unfold handle_validate_code
    rw [if_pos h0]
  · have hs : safetyScore parse "" = 0 := by
      unfold safetyScore
      rw [he]
      rfl
    have hr : readabilityScore "" = 0 := by
      simp +decide [readabilityScore]
    have hpf : performanceScore "" = 0 := by
      simp +decide [performanceScore]
    unfold calculate_quality_score
    rw [hr, hpf, hs]
    norm_num

/-- Witness for the amended C8 with the oracle matching Python
(`ast.parse("")` succeeds). -/
theorem c8_empty_input_witness :
    (handle_validate_code (fun _ => none) [] false none "").1
        = VResult.errorPayload "No code provided"
    ∧ calculate_quality_score (fun _ => none) "" = 50
    ∧ (analyze_code (fun _ => none) "").errors = [] :=
  c8_empty_input_baseline (fun _ => none) [] false none rfl
